import Mathlib

/-!
Verification development for the dataforge-studio transformation
compilation and validation engine.

The definitions below are a shallow embedding of
`backend/app/services/compiler.py` (class `TransformCompiler`) and
`backend/app/services/executor.py` (class `DuckDBExecutor`).  Python
strings are Lean `String`s, Python dicts with fixed key sets are Lean
structures, Python lists are Lean `List`s.  The embedded DuckDB engine
is abstracted as an oracle function from the registered relations and
the query text to either an error message (a raised exception's text)
or a result; the surrounding control flow (connection lifecycle,
registration, result shaping, exception handling) is translated from
the source.
-/

namespace DataForge

/-! ## Kernel-friendly string utilities

Python string primitives (`str.format`-style substitution, `str.replace`,
`str.lstrip`, slicing, substring search) are modelled on `List Char` with
structural recursion so concrete instances evaluate inside the kernel. -/

/-- One pass of replace-all: `fuel` bounds the recursion (it is the input
length, so every occurrence is seen); on a match the pattern is consumed,
exactly like Python `str.replace` scanning left to right. -/
def replaceAux (pat rep : List Char) : Nat → List Char → List Char
  | 0, l => l
  | _ + 1, [] => []
  | fuel + 1, c :: cs =>
      if pat ≠ [] ∧ pat.isPrefixOf (c :: cs) then
        rep ++ replaceAux pat rep fuel (List.drop pat.length (c :: cs))
      else
        c :: replaceAux pat rep fuel cs

/-- Python `s.replace(pat, rep)` (all occurrences, left to right). -/
def pyReplace (s pat rep : String) : String :=
  String.mk (replaceAux pat.data rep.data s.data.length s.data)

/-- Index of the first occurrence of `pat` (as a character offset). -/
def firstOcc (pat : List Char) : List Char → Option Nat
  | [] => none
  | c :: cs =>
      if pat.isPrefixOf (c :: cs) then some 0
      else (firstOcc pat cs).map (· + 1)

/-- Whether `pat` occurs in `s` (Python `pat in s` for non-empty `pat`). -/
def containsSub (s pat : String) : Bool :=
  (firstOcc pat.data s.data).isSome

/-- Character index of the first occurrence of `pat` in `s` (Python
`s.index(pat)`); the full length when `pat` does not occur. -/
def idxOfSub (s pat : String) : Nat :=
  (firstOcc pat.data s.data).getD s.data.length

/-- Python `s.startswith(pat)`. -/
def pyStartsWith (s pat : String) : Bool :=
  pat.data.isPrefixOf s.data

/-- Python `s[n:]` (character slicing). -/
def pyDrop (s : String) (n : Nat) : String :=
  String.mk (s.data.drop n)

/-- Python `s.lstrip()` (leading whitespace removed). -/
def pyLstrip (s : String) : String :=
  String.mk (s.data.dropWhile Char.isWhitespace)

/-- Python `str.format` with keyword arguments: each `\x7bkey\x7d`
placeholder is replaced by its value. -/
def pyFormat (tmpl : String) (args : List (String × String)) : String :=
  args.foldl (fun s kv => pyReplace s ("\x7b" ++ kv.1 ++ "\x7d") kv.2) tmpl

/-! ## Data model

`backend/app/models/spec.py` is not among the repository sources (only its
importers are), so the column-spec model is taken from the specification.
-/

/-- Modelled from the spec: the `regex` transformation record of
`app/models/spec.py` (`\x7benabled, pattern, replacement\x7d`, §3). -/
structure RegexTransform where
  enabled : Bool := false
  pattern : String := ""
  replacement : String := ""
deriving DecidableEq

/-- Modelled from the spec: the `where_filter` record
(`\x7benabled, condition\x7d`, §3). -/
structure WhereFilter where
  enabled : Bool := false
  condition : String := ""
deriving DecidableEq

/-- Modelled from the spec: one `\x7bwhen, then\x7d` case of the
`conditional` record (§3); `then` is a Lean keyword, hence the
underscored field names. -/
structure ConditionalCase where
  when_ : String
  then_ : String
deriving DecidableEq

/-- Modelled from the spec: the `conditional` record
(`\x7benabled, cases, else_value\x7d`, §3). -/
structure ConditionalTransform where
  enabled : Bool := false
  cases : List ConditionalCase := []
  else_value : String := ""
deriving DecidableEq

/-- Modelled from the spec: the `delimiter_split` record
(`\x7benabled, delimiter, index\x7d`, §3). -/
structure DelimiterSplit where
  enabled : Bool := false
  delimiter : String := ","
  index : Int := 0
deriving DecidableEq

/-- Modelled from the spec: `ColumnTransformations` of
`app/models/spec.py` (§3).  Optional strings (`type_cast`,
`custom_expression`) use `""` for Python's falsy empty/None value. -/
structure ColumnTransformations where
  trim : Bool := false
  strip_special_chars : Bool := false
  regex : RegexTransform := {}
  case_normalization : String := "none"
  type_cast : String := ""
  null_strategy : String := "none"
  null_replacement : String := ""
  where_filter : WhereFilter := {}
  conditional : ConditionalTransform := {}
  delimiter_split : DelimiterSplit := {}
  custom_expression : String := ""
deriving DecidableEq

/-- Modelled from the spec: `Column` of `app/models/spec.py` (§3). -/
structure Column where
  name : String
  data_type : String
  nullable : Bool := true
  transformations : ColumnTransformations := {}
  notes : String := ""
deriving DecidableEq

/-! ## Template registry

`backend/app/services/templates.py` (`TEMPLATES`, `TRANSFORM_ORDER`) is not
among the repository sources, so the registry is taken from the
specification (§2 Template Registry, §4.1, §8) and the repository's tests:
a `(step-key, dialect)`-indexed table of pattern strings, `""` for an
absent template and a `__WARNING__:`-prefixed marker for an unsupported
feature (regex replace on T-SQL). -/

/-- The seven SQL dialects of §3 (the eighth dialect is `pyspark`). -/
def isSqlDialect (d : String) : Bool :=
  d = "ansi" || d = "snowflake_sql" || d = "spark_sql" || d = "bigquery_sql"
    || d = "tsql" || d = "mysql" || d = "postgresql"

/-- Modelled from the spec: the template registry `TEMPLATES` of
`app/services/templates.py` (missing from the sources).  Each entry
follows §2/§8 and the repository tests: every dialect has a real trim
pattern (`LTRIM(RTRIM(...))` on T-SQL), regex replace is a warning marker
on T-SQL, and every PySpark pattern embeds `F.col('...')`. -/
def TEMPLATES (key dialect : String) : String :=
  if key = "trim" then
    if dialect = "pyspark" then "F.trim(F.col('{col}'))"
    else if dialect = "tsql" then "LTRIM(RTRIM({col}))"
    else if isSqlDialect dialect then "TRIM({col})"
    else ""
  else if key = "strip_special" then
    if dialect = "pyspark" then
      "F.regexp_replace(F.col('{col}'), '[^a-zA-Z0-9 ]', '')"
    else if dialect = "tsql" then ""
    else if isSqlDialect dialect then
      "REGEXP_REPLACE({col}, '[^a-zA-Z0-9 ]', '')"
    else ""
  else if key = "regex_replace" then
    if dialect = "pyspark" then
      "F.regexp_replace(F.col('{col}'), '{pattern}', '{repl}')"
    else if dialect = "tsql" then
      "__WARNING__: REGEXP_REPLACE is not supported in T-SQL; step skipped"
    else if isSqlDialect dialect then
      "REGEXP_REPLACE({col}, '{pattern}', '{repl}')"
    else ""
  else if key = "case_upper" then
    if dialect = "pyspark" then "F.upper(F.col('{col}'))"
    else if isSqlDialect dialect then "UPPER({col})"
    else ""
  else if key = "case_lower" then
    if dialect = "pyspark" then "F.lower(F.col('{col}'))"
    else if isSqlDialect dialect then "LOWER({col})"
    else ""
  else if key = "case_title" then
    if dialect = "pyspark" then "F.initcap(F.col('{col}'))"
    else if dialect = "tsql" then ""
    else if isSqlDialect dialect then "INITCAP({col})"
    else ""
  else if key = "cast_integer" then
    if dialect = "pyspark" then "F.col('{col}').cast('int')"
    else if isSqlDialect dialect then "CAST({col} AS INTEGER)"
    else ""
  else if key = "cast_float" then
    if dialect = "pyspark" then "F.col('{col}').cast('double')"
    else if isSqlDialect dialect then "CAST({col} AS FLOAT)"
    else ""
  else if key = "cast_string" then
    if dialect = "pyspark" then "F.col('{col}').cast('string')"
    else if isSqlDialect dialect then "CAST({col} AS VARCHAR)"
    else ""
  else if key = "cast_date" then
    if dialect = "pyspark" then "F.to_date(F.col('{col}'), 'yyyy-MM-dd')"
    else if isSqlDialect dialect then "TO_DATE({col}, '{format}')"
    else ""
  else if key = "cast_boolean" then
    if dialect = "pyspark" then "F.col('{col}').cast('boolean')"
    else if isSqlDialect dialect then "CAST({col} AS BOOLEAN)"
    else ""
  else if key = "null_replace" then
    if dialect = "pyspark" then
      "F.coalesce(F.col('{col}'), F.lit('{replacement}'))"
    else if isSqlDialect dialect then "COALESCE({col}, '{replacement}')"
    else ""
  else if key = "null_drop" then
    if dialect = "pyspark" then
      "F.when(F.col('{col}').isNotNull(), F.col('{col}'))"
    else if isSqlDialect dialect then
      "CASE WHEN {col} IS NOT NULL THEN {col} END"
    else ""
  else if key = "null_flag" then
    if dialect = "pyspark" then "F.col('{col}').isNull()"
    else if isSqlDialect dialect then
      "CASE WHEN {col} IS NULL THEN 1 ELSE 0 END"
    else ""
  else if key = "where_filter" then
    if dialect = "pyspark" then
      "F.when({condition}, F.col('{col}'))"
    else if isSqlDialect dialect then
      "CASE WHEN {condition} THEN {col} END"
    else ""
  else if key = "conditional_case" then
    if dialect = "pyspark" then
      "F.expr(\"CASE {cases} ELSE '{else_value}' END\")"
    else if isSqlDialect dialect then
      "CASE {cases} ELSE '{else_value}' END"
    else ""
  else if key = "delimiter_split" then
    if dialect = "pyspark" then
      "F.split(F.col('{col}'), '{delimiter}').getItem({index})"
    else if dialect = "tsql" then ""
    else if isSqlDialect dialect then
      "SPLIT_PART({col}, '{delimiter}', {index})"
    else ""
  else ""

/-- Modelled from the spec: `TRANSFORM_ORDER` of
`app/services/templates.py` (missing from the sources) — the fixed,
globally-ordered step sequence of §4.1, with the step names the compiler's
dispatch loop matches on. -/
def TRANSFORM_ORDER : List String :=
  ["trim", "strip_special", "regex", "case_normalization", "type_cast",
   "null_strategy", "where_filter", "conditional", "delimiter_split"]

/-! ## Column expression compiler

Embedding of `TransformCompiler.compile_column`
(`app/services/compiler.py`, lines 19-140).  The Python closure `_apply`
mutates `expr`, `warnings` and `pyspark_applied`; here that state is the
explicit `ApplyState` threaded through a fold over `TRANSFORM_ORDER`.  The
repeated Python comparison `target == "pyspark"` is computed once as the
Boolean `isPy` (the source itself computes `tgt_dialect` once this way). -/

/-- `_WARNING_PREFIX` of `compiler.py` (line 9). -/
def warningMarker : String := "__WARNING__:"

/-- `_PYSPARK_COL_PATTERN` of `compiler.py` (line 12). -/
def pysparkColPattern : String := "F.col('{col}')"

/-- The mutable state of the `_apply` closure in `compile_column`. -/
structure ApplyState where
  expr : String
  warnings : List String
  pyspark_applied : Bool
deriving DecidableEq

/-- The `_apply` inner function of `compile_column` (`compiler.py`,
lines 45-68). -/
def applyStep (colName : String) (isPy : Bool) (tgtDialect : String)
    (templateKey : String) (extra : List (String × String))
    (st : ApplyState) : ApplyState :=
  let tmpl := TEMPLATES templateKey tgtDialect
  if tmpl = "" then st
  else if pyStartsWith tmpl warningMarker then
    { st with
      warnings := st.warnings ++ [pyLstrip (pyDrop tmpl warningMarker.length)] }
  else if isPy then
    if st.pyspark_applied = false then
      { st with
        expr := pyFormat tmpl (("col", colName) :: extra),
        pyspark_applied := true }
    else
      let chain := pyReplace tmpl pysparkColPattern "{col}"
      { st with expr := pyFormat chain (("col", st.expr) :: extra) }
  else
    { st with expr := pyFormat tmpl (("col", st.expr) :: extra) }

/-- The `WHEN ... THEN '...'` clause list of the conditional step
(`compiler.py`, lines 111-114). -/
def casesClause (cases : List ConditionalCase) : String :=
  String.intercalate " "
    (cases.map (fun c => "WHEN " ++ c.when_ ++ " THEN '" ++ c.then_ ++ "'"))

/-- One iteration of the step-dispatch loop of `compile_column`
(`compiler.py`, lines 70-131). -/
def runStep (column : Column) (isPy : Bool) (tgtDialect : String)
    (step : String) (st : ApplyState) : ApplyState :=
  let t := column.transformations
  if step = "trim" then
    if t.trim then applyStep column.name isPy tgtDialect "trim" [] st else st
  else if step = "strip_special" then
    if t.strip_special_chars then
      applyStep column.name isPy tgtDialect "strip_special" [] st
    else st
  else if step = "regex" then
    if t.regex.enabled then
      applyStep column.name isPy tgtDialect "regex_replace"
        [("pattern", t.regex.pattern), ("repl", t.regex.replacement)] st
    else st
  else if step = "case_normalization" then
    if t.case_normalization ≠ "none" then
      applyStep column.name isPy tgtDialect
        ("case_" ++ t.case_normalization) [] st
    else st
  else if step = "type_cast" then
    if t.type_cast ≠ "" then
      applyStep column.name isPy tgtDialect ("cast_" ++ t.type_cast)
        [("type", t.type_cast), ("format", "YYYY-MM-DD")] st
    else st
  else if step = "null_strategy" then
    if t.null_strategy = "replace" then
      applyStep column.name isPy tgtDialect "null_replace"
        [("replacement", t.null_replacement)] st
    else if t.null_strategy = "drop" then
      applyStep column.name isPy tgtDialect "null_drop" [] st
    else if t.null_strategy = "flag" then
      applyStep column.name isPy tgtDialect "null_flag" [] st
    else st
  else if step = "where_filter" then
    if t.where_filter.enabled then
      applyStep column.name isPy tgtDialect "where_filter"
        [("condition", t.where_filter.condition)] st
    else st
  else if step = "conditional" then
    if t.conditional.enabled && !t.conditional.cases.isEmpty then
      applyStep column.name isPy tgtDialect "conditional_case"
        [("cases", casesClause t.conditional.cases),
         ("else_value", t.conditional.else_value)] st
    else st
  else if step = "delimiter_split" then
    if t.delimiter_split.enabled then
      applyStep column.name isPy tgtDialect "delimiter_split"
        [("delimiter", t.delimiter_split.delimiter),
         ("index", toString t.delimiter_split.index)] st
    else st
  else st

/-- The compiled-column result dict of `compile_column`
(`compiler.py`, lines 27-34 and 133-140). -/
structure CompiledColumn where
  column_name : String
  expression : String
  alias_ : String
  warnings : List String
  target : String
  dialect : String
deriving DecidableEq

/-- `TransformCompiler.compile_column` (`compiler.py`, lines 19-140). -/
def compile_column (column : Column) (target dialect : String) :
    CompiledColumn :=
  let t := column.transformations
  if t.custom_expression ≠ "" then
    { column_name := column.name
      expression := t.custom_expression
      alias_ := column.name
      warnings := []
      target := target
      dialect := dialect }
  else
    let isPy : Bool := target == "pyspark"
    let tgtDialect := if isPy then "pyspark" else dialect
    let init : ApplyState :=
      { expr := if isPy then "F.col('" ++ column.name ++ "')" else column.name
        warnings := []
        pyspark_applied := false }
    let st := TRANSFORM_ORDER.foldl
      (fun st step => runStep column isPy tgtDialect step st) init
    { column_name := column.name
      expression := st.expr
      alias_ := column.name
      warnings := st.warnings
      target := target
      dialect := dialect }

/-! ## Execution engine

Embedding of `DuckDBExecutor` (`app/services/executor.py`).  A result row
is an association list from column name to an optional value (Python
`r.get(col) is None` is true both for a missing key and a stored null, and
both are `none` here).  The DuckDB engine itself is external; it is
abstracted as an `Engine` oracle mapping the registered relations and the
query text to either an error message (the text of the raised exception)
or a pair of output column names and raw rows.  The connection lifecycle
around it (lines 16-40) is recorded as a `DuckEvent` trace. -/

/-- A result row: column name to optional value. -/
abbrev Row := List (String × Option String)

/-- Python `row.get(col)`: `none` for a missing key or a null value. -/
def rowGet (r : Row) (c : String) : Option String :=
  match r.lookup c with
  | none => none
  | some v => v

/-- The engine-level events of one `execute_sql` call: opening the
in-memory connection, registering a relation, running the query,
closing the connection. -/
inductive DuckEvent where
  | openConn : DuckEvent
  | registerRel : String → DuckEvent
  | runQuery : String → DuckEvent
  | closeConn : DuckEvent
deriving DecidableEq

/-- The abstracted DuckDB engine: registered relations and query text to
either a raised exception's message or (output column names, raw rows). -/
abbrev Engine :=
  List (String × List Row) → String → Except String (List String × List (List (Option String)))

/-- The relations registered by `execute_sql` (lines 18-20): with an empty
`data` list no relation is registered at all. -/
def execEnv (data : List Row) (table_name : String) : List (String × List Row) :=
  if data.isEmpty then [] else [(table_name, data)]

/-- The events preceding the query: connect (line 17), then conditionally
register (lines 18-20). -/
def execPrelude (data : List Row) (table_name : String) : List DuckEvent :=
  DuckEvent.openConn ::
    (if data.isEmpty then [] else [DuckEvent.registerRel table_name])

/-- The result dict of `execute_sql` (lines 26-40). -/
structure ExecResult where
  success : Bool
  rows : List Row
  columns : List String
  row_count : Nat
  error : String
deriving DecidableEq

/-- `DuckDBExecutor.execute_sql` (`executor.py`, lines 13-40), paired with
the trace of engine events.  A raised engine exception reaches the
`except` branch (lines 33-40), which returns the failure shape without
executing the `conn.close()` of the success path (line 25). -/
def execute_sql (engine : Engine) (query : String) (data : List Row)
    (table_name : String) : ExecResult × List DuckEvent :=
  match engine (execEnv data table_name) query with
  | Except.error exc =>
      ({ success := false, rows := [], columns := [], row_count := 0,
         error := exc },
       execPrelude data table_name ++ [DuckEvent.runQuery query])
  | Except.ok (cols, raw) =>
      let rows : List Row := raw.map (fun vals => cols.zip vals)
      ({ success := true, rows := rows, columns := cols,
         row_count := rows.length, error := "" },
       execPrelude data table_name ++
         [DuckEvent.runQuery query, DuckEvent.closeConn])

/-! ## Assertions and validation -/

/-- One assertion dict of `generate_assertions` (lines 44-71); the unused
fields of each variant keep their defaults, like absent dict keys. -/
structure Assertion where
  atype : String
  description : String
  column : String := ""
  min : Nat := 0
  expected_type : String := ""
deriving DecidableEq

/-- `DuckDBExecutor.generate_assertions` (`executor.py`, lines 44-71). -/
def generate_assertions (column : Column) : List Assertion :=
  [{ atype := "row_count_gte", min := 1,
     description := "output has at least 1 row" }]
  ++ (if column.nullable then []
      else [{ atype := "not_null", column := column.name,
              description := column.name ++ " has no nulls" }])
  ++ (if column.transformations.type_cast ≠ "" then
        [{ atype := "type_check", column := column.name,
           expected_type := column.transformations.type_cast,
           description := column.name ++ " cast to "
             ++ column.transformations.type_cast }]
      else [])
  ++ (if column.transformations.regex.enabled then
        [{ atype := "no_error", column := column.name,
           description := "regex applied without errors" }]
      else [])

/-- One assertion-result dict of `run_assertion` (lines 105-110). -/
structure AssertionResult where
  atype : String
  description : String
  passed : Bool
  detail : String
deriving DecidableEq

/-- `DuckDBExecutor.run_assertion` (`executor.py`, lines 73-110). -/
def run_assertion (a : Assertion) (rows : List Row) : AssertionResult :=
  if a.atype = "row_count_gte" then
    let passed : Bool := rows.length ≥ a.min
    { atype := a.atype, description := a.description, passed := passed,
      detail := if passed then ""
        else "Expected >= " ++ toString a.min ++ " rows, got "
          ++ toString rows.length }
  else if a.atype = "not_null" then
    let null_count := (rows.filter (fun r => (rowGet r a.column).isNone)).length
    let passed : Bool := null_count = 0
    { atype := a.atype, description := a.description, passed := passed,
      detail := if passed then ""
        else toString null_count ++ " null(s) found in '" ++ a.column ++ "'" }
  else if a.atype = "type_check" then
    { atype := a.atype, description := a.description, passed := true,
      detail := "" }
  else if a.atype = "no_error" then
    { atype := a.atype, description := a.description, passed := true,
      detail := "" }
  else
    { atype := a.atype, description := a.description, passed := false,
      detail := "Unknown assertion type: " ++ a.atype }

/-- The `table_spec["table"]` sub-dict (`name`, `layer`). -/
structure TableMeta where
  name : String
  layer : String
deriving DecidableEq

/-- The table-spec dict consumed by `validate_table`: its `table` metadata
and its already-validated column specs. -/
structure TableSpec where
  table : TableMeta
  columns : List Column
deriving DecidableEq

/-- The per-column assertion results derived inside `validate_table`'s
loop (lines 127-135) for one column. -/
def columnResults (col : Column) (rows : List Row) : List AssertionResult :=
  (generate_assertions col).map (fun a => run_assertion a rows)

/-- All assertions `validate_table` derives for a table, in loop order
(one `generate_assertions` call per column, lines 127-129). -/
def tableAssertions (spec : TableSpec) : List Assertion :=
  (spec.columns.map generate_assertions).flatten

/-- The flat `all_results` list of `validate_table` (lines 124-131). -/
def allAssertionResults (spec : TableSpec) (rows : List Row) :
    List AssertionResult :=
  (spec.columns.map (fun col => columnResults col rows)).flatten

/-- One entry of the `columns` report of `validate_table` (lines 132-135). -/
structure ColumnReport where
  passed : Bool
  assertions : List AssertionResult
deriving DecidableEq

/-- The `execution` metadata of the validation report (lines 145-149). -/
structure ExecutionMeta where
  success : Bool
  row_count : Nat
  error : String
deriving DecidableEq

/-- The validation report of `validate_table` (lines 140-151). -/
structure ValidationReport where
  passed : Bool
  total_assertions : Nat
  passed_count : Nat
  failed_count : Nat
  execution : ExecutionMeta
  columns : List (String × ColumnReport)
deriving DecidableEq

/-- `DuckDBExecutor.validate_table` (`executor.py`, lines 114-151). -/
def validate_table (engine : Engine) (table_spec : TableSpec)
    (compiled_sql : String) (synthetic_data : List Row) : ValidationReport :=
  let exec_result :=
    (execute_sql engine compiled_sql synthetic_data table_spec.table.name).1
  let rows := exec_result.rows
  let all_results := allAssertionResults table_spec rows
  let total := all_results.length
  let passed_count := all_results.countP (fun r => r.passed)
  { passed := passed_count == total && decide (0 < total)
    total_assertions := total
    passed_count := passed_count
    failed_count := total - passed_count
    execution := { success := exec_result.success,
                   row_count := exec_result.row_count,
                   error := exec_result.error }
    columns := table_spec.columns.map (fun col =>
      (col.name,
       { passed := (columnResults col rows).all (fun r => r.passed),
         assertions := columnResults col rows })) }

/-! ## Derived notions used in the statements -/

/-- Whether a (step-key, dialect) template is a real pattern — present and
not a warning marker (the third of §4.1's three template outcomes). -/
def supportsStep (key dialect : String) : Bool :=
  (TEMPLATES key dialect != "")
    && !pyStartsWith (TEMPLATES key dialect) warningMarker

/-- The trim syntax marker of a dialect (the function name of its trim
template): `LTRIM` on T-SQL, `F.trim` on PySpark, `TRIM` elsewhere. -/
def trimSyntax (d : String) : String :=
  if d = "tsql" then "LTRIM" else if d = "pyspark" then "F.trim" else "TRIM"

/-- The upper-case syntax marker of a dialect: `F.upper` on PySpark,
`UPPER` elsewhere. -/
def upperSyntax (d : String) : String :=
  if d = "pyspark" then "F.upper" else "UPPER"

/-- A column spec whose active transformations are exactly `trim` plus
`case_normalization = "upper"` — every other step inert, no custom
expression (the configuration of §8's ordering property and of the
repository's stacking test). -/
def trimUpperSpec (name dt : String) (nb : Bool) (nt : String) : Column :=
  { name := name, data_type := dt, nullable := nb,
    transformations := { trim := true, case_normalization := "upper" },
    notes := nt }

/-- A column spec with `trim` active and `case_normalization = "upper"`
and additionally one active conditional case: a column spec with trim and
upper active on which the ordering property fails. -/
def trimUpperConditionalColumn : Column :=
  { name := "col_a", data_type := "string",
    transformations :=
      { trim := true, case_normalization := "upper",
        conditional :=
          { enabled := true,
            cases := [{ when_ := "x = 1", then_ := "ONE" }],
            else_value := "" } } }

/-- Event predicate: an `openConn` event. -/
def isOpenEvent : DuckEvent → Bool
  | DuckEvent.openConn => true
  | _ => false

/-- Event predicate: a `runQuery` event. -/
def isRunEvent : DuckEvent → Bool
  | DuckEvent.runQuery _ => true
  | _ => false

/-- Event predicate: a `closeConn` event. -/
def isCloseEvent : DuckEvent → Bool
  | DuckEvent.closeConn => true
  | _ => false

/-- Event predicate: a `registerRel` event. -/
def isRegisterEvent : DuckEvent → Bool
  | DuckEvent.registerRel _ => true
  | _ => false

/-- A concrete engine whose every query raises (the behaviour of DuckDB on
an unknown relation). -/
def failingEngine : Engine :=
  fun _ _ =>
    Except.error "Catalog Error: Table with name customers does not exist!"

/-- The two-column table spec of the repository's validation test: a
non-nullable `id` and a nullable `name`. -/
def twoColumnSpec : TableSpec :=
  { table := { name := "test_table", layer := "bronze" },
    columns := [
      { name := "id", data_type := "integer", nullable := false },
      { name := "name", data_type := "string", nullable := true } ] }

/-- A table with one nullable, cast-free, regex-free column: it derives
only the row-count assertion. -/
def plainColumnSpec : TableSpec :=
  { table := { name := "t", layer := "bronze" },
    columns := [ { name := "a", data_type := "string" } ] }

/-! ## Theorems -/

/-- Helper: every step and field of `compile_column` compares the target
only against `"pyspark"`, so a non-dataframe target compiles exactly like
the `sql` target, up to the echoed `target` field. -/
theorem compile_nonpyspark (col : Column) (target dialect : String)
    (h : (target == "pyspark") = false) :
    compile_column col target dialect =
      { compile_column col "sql" dialect with target := target } := by
  by_cases hce : col.transformations.custom_expression = "" <;>
    simp [compile_column, h, hce]

/-- Helper: the only dialects whose trim template is a real pattern are
the seven SQL dialects and `pyspark`. -/
theorem supports_trim_dialects (d : String)
    (h : supportsStep "trim" d = true) :
    d = "ansi" ∨ d = "snowflake_sql" ∨ d = "spark_sql" ∨
    d = "bigquery_sql" ∨ d = "tsql" ∨ d = "mysql" ∨ d = "postgresql" ∨
    d = "pyspark" := by
  by_contra hc
  push_neg at hc
  obtain ⟨h1, h2, h3, h4, h5, h6, h7, h8⟩ := hc
  simp [supportsStep, TEMPLATES, isSqlDialect,
    h1, h2, h3, h4, h5, h6, h7, h8] at h

/-- C1: a set (non-empty) `custom_expression` is returned verbatim as the
expression, with the column name as alias and an empty warnings list, for
every target and dialect and whatever the other transformation flags
are. -/
theorem c1_custom_expression_bypass (column : Column)
    (target dialect : String)
    (h : column.transformations.custom_expression ≠ "") :
    compile_column column target dialect =
      { column_name := column.name
        expression := column.transformations.custom_expression
        alias_ := column.name
        warnings := []
        target := target
        dialect := dialect } := by
  simp [compile_column, h]

/-- Witness for C1: the repository test's column (trim active alongside a
custom expression) on the `sql` target, `snowflake_sql` dialect. -/
theorem c1_witness :
    compile_column
      { name := "col_a", data_type := "string",
        transformations := { trim := true,
                             custom_expression := "MY_CUSTOM_FUNC(col)" } }
      "sql" "snowflake_sql" =
      { column_name := "col_a", expression := "MY_CUSTOM_FUNC(col)",
        alias_ := "col_a", warnings := [], target := "sql",
        dialect := "snowflake_sql" } :=
  c1_custom_expression_bypass
    { name := "col_a", data_type := "string",
      transformations := { trim := true,
                           custom_expression := "MY_CUSTOM_FUNC(col)" } }
    "sql" "snowflake_sql" (by decide)

/-- C2 (counterexample): a column spec with trim active and
case_normalization upper but also one active conditional case, compiled
for the non-dataframe `sql` target on a dialect whose trim and upper
templates are both real patterns, yields an expression that contains the
dialect's trim syntax nowhere at all — the conditional-case template has
no column placeholder, so the later step discards the accumulated
upper-wrapped-trim expression. -/
theorem c2_counterexample :
    supportsStep "trim" "snowflake_sql" = true ∧
    supportsStep "case_upper" "snowflake_sql" = true ∧
    (compile_column trimUpperConditionalColumn "sql"
      "snowflake_sql").expression =
      "CASE WHEN x = 1 THEN 'ONE' ELSE '' END" ∧
    containsSub
      (compile_column trimUpperConditionalColumn "sql"
        "snowflake_sql").expression
      (trimSyntax "snowflake_sql") = false := by
  decide

/-- C2 (amended): for every column name, every column spec whose active
transformations are exactly trim plus case_normalization upper, every
non-dataframe target and every dialect whose trim and upper templates are
real patterns, the compiled expression places the dialect's upper-case
syntax textually before (wrapping) its trim syntax: the later
case-normalization step filled its column placeholder with the
already-trimmed expression. -/
theorem c2_upper_wraps_trim (name dt nt : String) (nb : Bool)
    (target dialect : String)
    (ht : (target == "pyspark") = false)
    (h1 : supportsStep "trim" dialect = true)
    (h2 : supportsStep "case_upper" dialect = true) :
    containsSub
      (compile_column (trimUpperSpec name dt nb nt) target dialect).expression
      (trimSyntax dialect) = true ∧
    idxOfSub
      (compile_column (trimUpperSpec name dt nb nt) target dialect).expression
      (upperSyntax dialect) <
    idxOfSub
      (compile_column (trimUpperSpec name dt nb nt) target dialect).expression
      (trimSyntax dialect) := by
  have hE :
      (compile_column (trimUpperSpec name dt nb nt) target dialect).expression
        = (compile_column (trimUpperSpec name dt nb nt) "sql"
            dialect).expression := by
    rw [compile_nonpyspark _ _ _ ht]
  rw [hE]
  rcases supports_trim_dialects dialect h1 with h|h|h|h|h|h|h|h <;> subst h
  · exact ⟨rfl, by show (0 : Nat) < 6; decide⟩
  · exact ⟨rfl, by show (0 : Nat) < 6; decide⟩
  · exact ⟨rfl, by show (0 : Nat) < 6; decide⟩
  · exact ⟨rfl, by show (0 : Nat) < 6; decide⟩
  · exact ⟨rfl, by show (0 : Nat) < 6; decide⟩
  · exact ⟨rfl, by show (0 : Nat) < 6; decide⟩
  · exact ⟨rfl, by show (0 : Nat) < 6; decide⟩
  · exact ⟨rfl, by show (0 : Nat) < 15; decide⟩

/-- Witness for C2: on the `sql` target and the Snowflake dialect, the
trim+upper-only column named `col_a` compiles to an expression nesting
`UPPER` around `TRIM`. -/
theorem c2_witness :
    containsSub
      (compile_column (trimUpperSpec "col_a" "string" true "") "sql"
        "snowflake_sql").expression
      (trimSyntax "snowflake_sql") = true ∧
    idxOfSub
      (compile_column (trimUpperSpec "col_a" "string" true "") "sql"
        "snowflake_sql").expression
      (upperSyntax "snowflake_sql") <
    idxOfSub
      (compile_column (trimUpperSpec "col_a" "string" true "") "sql"
        "snowflake_sql").expression
      (trimSyntax "snowflake_sql") :=
  c2_upper_wraps_trim "col_a" "string" "" true "sql" "snowflake_sql"
    rfl (by decide) (by decide)

/-- C5: when an active step's dialect template is a warning marker, the
step appends the marker's message (the text after the prefix, left
whitespace stripped) to the warnings and leaves the expression state —
expression and PySpark flag — unchanged. -/
theorem c5_warning_marker_appends_and_skips (colName : String) (isPy : Bool)
    (tgtDialect templateKey : String) (extra : List (String × String))
    (st : ApplyState)
    (h : pyStartsWith (TEMPLATES templateKey tgtDialect) warningMarker
          = true) :
    applyStep colName isPy tgtDialect templateKey extra st =
      { st with
        warnings := st.warnings ++
          [pyLstrip (pyDrop (TEMPLATES templateKey tgtDialect)
            warningMarker.length)] } := by
  have hne : TEMPLATES templateKey tgtDialect ≠ "" := by
    intro he
    rw [he] at h
    exact absurd h (by decide)
  simp [applyStep, hne, h]

/-- Witness for C5: the regex-replace step on the T-SQL dialect is a
warning marker; applying it to a concrete state appends exactly the
marker's message and rewrites nothing. -/
theorem c5_witness :
    applyStep "phone" false "tsql" "regex_replace"
      [("pattern", "[0-9]+"), ("repl", "X")]
      { expr := "phone", warnings := [], pyspark_applied := false } =
      { expr := "phone",
        warnings := ["REGEXP_REPLACE is not supported in T-SQL; step skipped"],
        pyspark_applied := false } :=
  (c5_warning_marker_appends_and_skips "phone" false "tsql" "regex_replace"
    [("pattern", "[0-9]+"), ("repl", "X")]
    { expr := "phone", warnings := [], pyspark_applied := false }
    (by decide)).trans (by decide)

/-- C6: with no custom expression and every transformation step inactive
(all defaults), the compiled expression is exactly the bare column
reference — the column name for non-dataframe targets, the
`F.col('...')` construct for the `pyspark` target — with no warnings. -/
theorem c6_round_trip_bare_reference (name dt nt pat rep cond nrepl ev delim : String)
    (nb : Bool) (idx : Int) (cs : List ConditionalCase)
    (target dialect : String) :
    compile_column
      { name := name, data_type := dt, nullable := nb,
        transformations :=
          { trim := false, strip_special_chars := false,
            regex := { enabled := false, pattern := pat, replacement := rep },
            case_normalization := "none", type_cast := "",
            null_strategy := "none", null_replacement := nrepl,
            where_filter := { enabled := false, condition := cond },
            conditional := { enabled := false, cases := cs, else_value := ev },
            delimiter_split :=
              { enabled := false, delimiter := delim, index := idx },
            custom_expression := "" },
        notes := nt } target dialect =
      { column_name := name
        expression :=
          if target == "pyspark" then "F.col('" ++ name ++ "')" else name
        alias_ := name
        warnings := []
        target := target
        dialect := dialect } := by
  simp [compile_column, TRANSFORM_ORDER, runStep]

/-- C9: a conditional step whose required cases list is empty is treated
as fully inactive: compilation of a column with `conditional.cases = []`
coincides — expression, warnings, everything — with compilation of the
same column with the conditional step disabled, for every target and
dialect. -/
theorem c9_empty_cases_treated_inactive (name dt nt : String) (nb : Bool)
    (t : ColumnTransformations) (target dialect : String)
    (h : t.conditional.cases = []) :
    compile_column { name := name, data_type := dt, nullable := nb,
                     transformations := t, notes := nt } target dialect =
    compile_column { name := name, data_type := dt, nullable := nb,
                     transformations :=
                       { t with conditional :=
                           { t.conditional with enabled := false } },
                     notes := nt } target dialect := by
  rcases t with ⟨tr, ssc, rx, cn, tc, ns, nr, wf, cond, ds, ce⟩
  rcases cond with ⟨en, cs, ev⟩
  simp only at h
  subst h
  simp [compile_column, runStep, TRANSFORM_ORDER]

/-- C7: a raised engine failure is converted into the structured failure
result — `success = false`, the exception text as the (non-empty) error,
empty rows and columns, `row_count = 0` — and an empty input row list
registers no relation at all, so the query meets an empty relation
namespace and its failure is surfaced the same structured way. -/
theorem c7_failure_shape (engine : Engine) (query : String) (data : List Row)
    (table_name exc : String)
    (hrun : engine (execEnv data table_name) query = Except.error exc)
    (hexc : exc ≠ "") :
    (execute_sql engine query data table_name).1 =
      { success := false, rows := [], columns := [], row_count := 0,
        error := exc } ∧
    (execute_sql engine query data table_name).1.error ≠ "" ∧
    (data = [] → execEnv data table_name = [] ∧
      (execute_sql engine query data table_name).2.countP isRegisterEvent
        = 0) := by
  refine ⟨?_, ?_, ?_⟩
  · simp [execute_sql, hrun]
  · simp [execute_sql, hrun, hexc]
  · intro hd
    subst hd
    refine ⟨rfl, ?_⟩
    simp [execute_sql, hrun, execPrelude, isRegisterEvent, List.countP_cons]

/-- Witness for C7: querying an unregistered relation on the failing
engine with an empty row list returns the exact failure shape. -/
theorem c7_witness :
    (execute_sql failingEngine "SELECT * FROM nonexistent_table_xyz" []
      "customers").1 =
      { success := false, rows := [], columns := [], row_count := 0,
        error := "Catalog Error: Table with name customers does not exist!" } ∧
    (execute_sql failingEngine "SELECT * FROM nonexistent_table_xyz" []
      "customers").1.error ≠ "" ∧
    (([] : List Row) = [] → execEnv ([] : List Row) "customers" = [] ∧
      (execute_sql failingEngine "SELECT * FROM nonexistent_table_xyz" []
        "customers").2.countP isRegisterEvent = 0) :=
  c7_failure_shape failingEngine "SELECT * FROM nonexistent_table_xyz" []
    "customers" "Catalog Error: Table with name customers does not exist!"
    rfl (by decide)

/-- C3 (counterexample): the claim says the engine instance is released
(closed) unconditionally, including when the query fails; on a concrete
failing call the trace carries no close event at all. -/
theorem c3_counterexample :
    (execute_sql failingEngine "SELECT * FROM customers" []
      "customers").1.success = false ∧
    (execute_sql failingEngine "SELECT * FROM customers" []
      "customers").2.countP isCloseEvent = 0 := by
  decide

/-- C3 (amended): every execution call opens exactly one ephemeral engine
instance and runs exactly one query on it, and closes it exactly when the
call succeeds — the exception path returns the structured failure without
an explicit close. -/
theorem c3_engine_lifecycle (engine : Engine) (query : String)
    (data : List Row) (table_name : String) :
    (execute_sql engine query data table_name).2.countP isOpenEvent = 1 ∧
    (execute_sql engine query data table_name).2.countP isRunEvent = 1 ∧
    (execute_sql engine query data table_name).2.countP isCloseEvent =
      (if (execute_sql engine query data table_name).1.success then 1
       else 0) := by
  cases data with
  | nil =>
    rcases hrun : engine (execEnv [] table_name) query with e | ok
    · simp [execute_sql, hrun, execPrelude, isOpenEvent, isRunEvent,
        isCloseEvent, List.countP_cons]
    · simp [execute_sql, hrun, execPrelude, isOpenEvent, isRunEvent,
        isCloseEvent, List.countP_cons]
  | cons r rs =>
    rcases hrun : engine (execEnv (r :: rs) table_name) query with e | ok
    · simp [execute_sql, hrun, execPrelude, isOpenEvent, isRunEvent,
        isCloseEvent, List.countP_cons]
    · simp [execute_sql, hrun, execPrelude, isOpenEvent, isRunEvent,
        isCloseEvent, List.countP_cons]

/-- C8: the validation report's top-level `passed` is true exactly when at
least one assertion was generated and every assertion result passed, and
the report's execution metadata is the projection of the initial
execution step whatever the per-assertion outcomes are. -/
theorem c8_report_semantics (engine : Engine) (spec : TableSpec)
    (sql : String) (data : List Row) :
    ((validate_table engine spec sql data).passed = true ↔
      (0 < (validate_table engine spec sql data).total_assertions ∧
       ∀ r ∈ allAssertionResults spec
           (execute_sql engine sql data spec.table.name).1.rows,
         r.passed = true)) ∧
    (validate_table engine spec sql data).execution =
      { success := (execute_sql engine sql data spec.table.name).1.success,
        row_count := (execute_sql engine sql data spec.table.name).1.row_count,
        error := (execute_sql engine sql data spec.table.name).1.error } := by
  refine ⟨?_, rfl⟩
  simp only [validate_table]
  rw [Bool.and_eq_true, beq_iff_eq, decide_eq_true_eq]
  constructor
  · rintro ⟨h1, h2⟩
    exact ⟨h2, fun r hr => List.countP_eq_length.mp h1 r hr⟩
  · rintro ⟨h1, h2⟩
    exact ⟨List.countP_eq_length.mpr h2, h1⟩

/-- C4 (counterexample): validation derives one row-count assertion per
column, not one per table — the two-column test table yields two. -/
theorem c4_counterexample :
    (tableAssertions twoColumnSpec).countP
      (fun a => a.atype == "row_count_gte") = 2 ∧
    (tableAssertions twoColumnSpec).countP
      (fun a => a.atype == "row_count_gte") ≠ 1 := by
  decide

/-- C4 (amended): each column's derived assertion list holds exactly one
row-count assertion (with minimum 1), plus a `not_null` assertion iff the
column is non-nullable, a `type_check` assertion iff a type cast is
configured, and a `no_error` assertion iff regex is enabled. -/
theorem c4_per_column_assertions (col : Column) :
    (generate_assertions col).countP
      (fun a => a.atype == "row_count_gte") = 1 ∧
    (∀ a ∈ generate_assertions col, a.atype = "row_count_gte" → a.min = 1) ∧
    (generate_assertions col).countP (fun a => a.atype == "not_null") =
      (if col.nullable then 0 else 1) ∧
    (generate_assertions col).countP (fun a => a.atype == "type_check") =
      (if col.transformations.type_cast ≠ "" then 1 else 0) ∧
    (generate_assertions col).countP (fun a => a.atype == "no_error") =
      (if col.transformations.regex.enabled then 1 else 0) := by
  cases hn : col.nullable <;>
    cases hr : col.transformations.regex.enabled <;>
    by_cases htc : col.transformations.type_cast = "" <;>
    simp [generate_assertions, hn, hr, htc, List.countP_cons]

/-- Helper: every assertion `generate_assertions` emits is one of the four
known kinds, and its row-count assertion carries minimum 1. -/
theorem generate_assertions_shape (col : Column) (a : Assertion)
    (ha : a ∈ generate_assertions col) :
    (a.atype = "row_count_gte" ∧ a.min = 1) ∨ a.atype = "not_null" ∨
    a.atype = "type_check" ∨ a.atype = "no_error" := by
  cases hn : col.nullable <;>
    cases hr : col.transformations.regex.enabled <;>
    by_cases htc : col.transformations.type_cast = "" <;>
    simp [generate_assertions, hn, hr, htc] at ha <;>
    aesop

/-- Helper: membership in the flat result list of `validate_table`. -/
theorem mem_allAssertionResults (spec : TableSpec) (rows : List Row)
    (r : AssertionResult) :
    r ∈ allAssertionResults spec rows ↔
    ∃ col ∈ spec.columns, ∃ a ∈ generate_assertions col,
      run_assertion a rows = r := by
  simp [allAssertionResults, columnResults]

/-- Helper: running a generated assertion against zero rows fails the
row-count check and passes the not-null, type-check and no-error
checks. -/
theorem run_assertion_cases (a : Assertion)
    (hshape : (a.atype = "row_count_gte" ∧ a.min = 1) ∨ a.atype = "not_null" ∨
      a.atype = "type_check" ∨ a.atype = "no_error") :
    ((run_assertion a []).atype = "row_count_gte" →
      (run_assertion a []).passed = false) ∧
    ((run_assertion a []).atype = "not_null" →
      (run_assertion a []).passed = true) ∧
    ((run_assertion a []).atype = "type_check" →
      (run_assertion a []).passed = true) ∧
    ((run_assertion a []).atype = "no_error" →
      (run_assertion a []).passed = true) := by
  rcases hshape with ⟨h, hm⟩ | h | h | h
  · simp [run_assertion, h, hm]
  · simp [run_assertion, h]
  · simp [run_assertion, h]
  · simp [run_assertion, h]

/-- C10 (counterexample): for a table whose single column is nullable with
no cast and no regex, a failed execution leaves no assertion result with
`passed = true` at all — the claim's "some individual assertion results
read passed true" fails on it. -/
theorem c10_counterexample :
    (validate_table failingEngine plainColumnSpec "SELECT a FROM t"
      []).passed = false ∧
    ((validate_table failingEngine plainColumnSpec "SELECT a FROM t"
      []).columns.all
        (fun p => p.2.assertions.all (fun r => r.passed == false))) =
      true := by
  decide

/-- C10 (amended): when the compiled SQL fails to execute, `validate_table`
still evaluates every derived assertion against the empty result-row
list: every row-count result fails, every not-null result passes
vacuously, every type-check and no-error result is reported passed, and
the report's overall `passed` is false (for a table with at least one
column). -/
theorem c10_failed_execution_report (engine : Engine) (spec : TableSpec)
    (sql : String) (data : List Row) (exc : String)
    (hcols : spec.columns ≠ [])
    (hrun : engine (execEnv data spec.table.name) sql = Except.error exc) :
    (execute_sql engine sql data spec.table.name).1.rows = [] ∧
    (validate_table engine spec sql data).passed = false ∧
    (∀ r ∈ allAssertionResults spec [],
       (r.atype = "row_count_gte" → r.passed = false) ∧
       (r.atype = "not_null" → r.passed = true) ∧
       (r.atype = "type_check" → r.passed = true) ∧
       (r.atype = "no_error" → r.passed = true)) := by
  have hrows : (execute_sql engine sql data spec.table.name).1.rows = [] := by
    simp [execute_sql, hrun]
  refine ⟨hrows, ?_, ?_⟩
  · obtain ⟨c, cs, hspec⟩ := List.exists_cons_of_ne_nil hcols
    have hmem : run_assertion
        { atype := "row_count_gte", min := 1,
          description := "output has at least 1 row" } [] ∈
        allAssertionResults spec [] := by
      rw [mem_allAssertionResults]
      refine ⟨c, ?_, ?_⟩
      · rw [hspec]; exact List.mem_cons_self c cs
      · exact ⟨_, List.mem_cons_self _ _, rfl⟩
    simp only [validate_table, hrows]
    rw [Bool.eq_false_iff]
    intro habs
    rw [Bool.and_eq_true, beq_iff_eq] at habs
    have hall := List.countP_eq_length.mp habs.1 _ hmem
    exact absurd hall (by decide)
  · intro r hr
    rcases (mem_allAssertionResults spec [] r).mp hr with
      ⟨col, hcol, a, haa, har⟩
    rw [← har]
    exact run_assertion_cases a (generate_assertions_shape col a haa)

/-- Witness for C10: the two-column test table under the failing engine —
execution yields no rows and the overall report fails. -/
theorem c10_witness :
    (execute_sql failingEngine "SELECT id, name FROM test_table" []
      twoColumnSpec.table.name).1.rows = [] ∧
    (validate_table failingEngine twoColumnSpec
      "SELECT id, name FROM test_table" []).passed = false := by
  have h := c10_failed_execution_report failingEngine twoColumnSpec
    "SELECT id, name FROM test_table" []
    "Catalog Error: Table with name customers does not exist!"
    (by decide) rfl
  exact ⟨h.1, h.2.1⟩

/-- Witness for C9: a concrete column with the conditional step enabled
but an empty cases list compiles exactly as if the step were disabled. -/
theorem c9_witness :
    compile_column
      { name := "col_a", data_type := "string", nullable := true,
        transformations :=
          { trim := true,
            conditional := { enabled := true, cases := [],
                             else_value := "other" } },
        notes := "" } "sql" "snowflake_sql" =
    compile_column
      { name := "col_a", data_type := "string", nullable := true,
        transformations :=
          { trim := true,
            conditional := { enabled := false, cases := [],
                             else_value := "other" } },
        notes := "" } "sql" "snowflake_sql" :=
  c9_empty_cases_treated_inactive "col_a" "string" "" true
    { trim := true,
      conditional := { enabled := true, cases := [], else_value := "other" } }
    "sql" "snowflake_sql" rfl

end DataForge
